import Mathlib

/-!
Shallow embedding of `app.py` (ai4u-top10-backend): the request-handling
pipeline `validate → search → format → optionally deliver → respond`.

External effects (the Rainforest HTTP call, the two SMTP sessions, the
clock and the uuid) are passed in explicitly as oracles/parameters; all
pure data shaping (truthiness coercions, filtering, truncation, category
analysis, response assembly) is translated directly from the source.
-/

namespace AI4U

/-- Python truthiness of an optional string: `None` and `""` are falsy
(`if not s: ...`). -/
def pyTruthy : Option String → Bool
  | none => false
  | some s => !(s == "")

/-- Single ASCII/Unicode-aware quote character, used in messages built with
Python f-strings. -/
def sq : String := String.singleton (Char.ofNat 39)

/-- ASCII lower-casing of one character, as Python `str.lower()` acts on
the ASCII range. -/
def pyLowerChar (c : Char) : Char :=
  if 65 ≤ c.toNat ∧ c.toNat ≤ 90 then Char.ofNat (c.toNat + 32) else c

/-- Python `str.lower()` (ASCII fragment). -/
def pyLower (s : String) : String := ⟨s.data.map pyLowerChar⟩

/-- The ASCII whitespace Python `str.strip()` removes. -/
def isPySpace (c : Char) : Bool :=
  c == ' ' || c == '\t' || c == '\n' || c == '\r' ||
    c == '\x0b' || c == '\x0c'

/-- Python `str.strip()` with no argument: whitespace removed from both
ends. -/
def pyStrip (s : String) : String :=
  ⟨((s.data.dropWhile isPySpace).reverse.dropWhile isPySpace).reverse⟩

/-- Substring test over char lists: does `needle` occur contiguously inside
the list?  Embeds Python `w in p` for strings. -/
def containsSub (needle : List Char) : List Char → Bool
  | [] => needle.isEmpty
  | c :: rest => needle.isPrefixOf (c :: rest) || containsSub needle rest

/-- `strContains hay needle` embeds Python `needle in hay`. -/
def strContains (hay needle : String) : Bool :=
  containsSub needle.data hay.data

/-- Python `str.title()`: the first cased character of every alphabetic run
is upper-cased, the rest lower-cased. -/
def titleAux : List Char → Bool → List Char
  | [], _ => []
  | c :: cs, prevAlpha =>
    if c.isAlpha then
      (if prevAlpha then c.toLower else c.toUpper) :: titleAux cs true
    else
      c :: titleAux cs false

/-- Python `str.title()` on a whole string. -/
def pyTitle (s : String) : String :=
  ⟨titleAux s.data false⟩

/-! ## Rainforest API client (`RainforestApiClient`, app.py lines 102-144) -/

/-- One raw entry of the upstream `search_results` array.  `none` models a
missing key (or JSON `null`), so `pyTruthy` mirrors
`not item.get("asin")` / `not item.get("title")`. -/
structure SearchItem where
  asin : Option String
  title : Option String
  price_raw : Option String
  rating : Option Int
  image : Option String
deriving DecidableEq, Repr

/-- The normalized product record appended by `search_products`. -/
structure Product where
  asin : String
  title : String
  price : String
  rating : Int
  affiliate_link : String
  image_url : String
  description : String
  amazon_url : String
deriving DecidableEq, Repr

/-- The retention test of the loop in `search_products`:
`if not item.get("asin") or not item.get("title"): continue`. -/
def itemValid (item : SearchItem) : Bool :=
  pyTruthy item.asin && pyTruthy item.title

/-- Builds one product dict from a retained item (`products.append({...})`,
app.py lines 130-139). -/
def mkProduct (affiliate_id : String) (item : SearchItem) : Product :=
  let asin := item.asin.getD ""
  { asin := asin
    title := item.title.getD ""
    price := item.price_raw.getD "Price not available"
    rating := item.rating.getD 0
    affiliate_link :=
      "https://www.amazon.com/dp/" ++ asin ++ "?tag=" ++ affiliate_id
    image_url := item.image.getD ""
    description := item.title.getD ""
    amazon_url := "https://www.amazon.com/dp/" ++ asin }

/-- The `for item in data["search_results"][:max_results]` loop: invalid
entries are skipped with `continue`, valid ones are appended in order. -/
def buildProducts (affiliate_id : String) : List SearchItem → List Product
  | [] => []
  | item :: rest =>
    if !(pyTruthy item.asin) || !(pyTruthy item.title) then
      buildProducts affiliate_id rest
    else
      mkProduct affiliate_id item :: buildProducts affiliate_id rest

/-- Outcome of the outbound HTTP call made by `search_products`, seen after
`resp.raise_for_status()` and `resp.json()`. -/
inductive SearchOutcome where
  /-- 2xx response whose JSON body has a `search_results` array. -/
  | ok (items : List SearchItem)
  /-- `requests.exceptions.RequestException` (connection failure or
  non-success status): re-raised as `ConnectionError`. -/
  | httpError (msg : String)
  /-- 2xx response without `search_results`: `ValueError` raised and
  propagated unchanged by the bare `raise`. -/
  | invalidResponse (msg : String)

/-- `RainforestApiClient.search_products` after the HTTP call: `.error`
carries the message of the exception that propagates to the caller. -/
def search_products (affiliate_id : String) (max_results : Nat)
    (outcome : SearchOutcome) : Except String (List Product) :=
  match outcome with
  | .httpError e => .error ("Failed to connect to Rainforest API: " ++ e)
  | .invalidResponse m =>
      .error ("Invalid response from Rainforest API: " ++ m)
  | .ok items => .ok (buildProducts affiliate_id (items.take max_results))

/-! ## Category classifier (`intelligent_category_analysis`, lines 151-161) -/

def groceryWords : List String :=
  ["food", "snack", "chips", "candy", "coffee", "tea", "organic", "grocery"]

def babyWords : List String :=
  ["baby", "diaper", "infant", "toddler", "kids", "children"]

def beautyWords : List String :=
  ["skincare", "beauty", "makeup", "cosmetic", "anti-aging"]

def electronicsWords : List String :=
  ["phone", "smartphone", "laptop", "headphone", "gaming"]

structure CategoryInfo where
  category : String
  search_terms : String
deriving DecidableEq, Repr

/-- `ProductListGenerator.intelligent_category_analysis`: lower-case the
prompt, test the keyword sets in priority order, return on first match. -/
def intelligent_category_analysis (prompt : String) : CategoryInfo :=
  if groceryWords.any (fun w => strContains (pyLower prompt) w) then
    ⟨"grocery", prompt ++ " food"⟩
  else if babyWords.any (fun w => strContains (pyLower prompt) w) then
    ⟨"baby", prompt ++ " baby"⟩
  else if beautyWords.any (fun w => strContains (pyLower prompt) w) then
    ⟨"beauty", prompt ++ " beauty"⟩
  else if electronicsWords.any (fun w => strContains (pyLower prompt) w) then
    ⟨"electronics", prompt⟩
  else
    ⟨"general", prompt⟩

/-! ## Product list generator (`generate_top10_list`, lines 163-183) -/

/-- The dict returned by `generate_top10_list`: either the
`{'success': False, 'error': ...}` dict or the full success dict. -/
inductive GenResult where
  | failure (error : String)
  | success (title intro category : String) (products : List Product)
      (generated_at affiliate_id : String)
deriving DecidableEq, Repr

/-- `f"No products found for '{prompt}'. Try a different term."` -/
def noProductsMsg (prompt : String) : String :=
  "No products found for " ++ sq ++ prompt ++ sq ++ ". Try a different term."

/-- `f"Top 10 {prompt.title()} - AI-Researched & Endorsed 2025"` -/
def listTitle (prompt : String) : String :=
  "Top 10 " ++ pyTitle prompt ++ " - AI-Researched & Endorsed 2025"

/-- The two-part intro f-string of `generate_top10_list`. -/
def introText (prompt : String) : String :=
  "Our AI analyzed " ++ pyLower prompt ++ " to produce this Top 10. " ++
    "Selections weigh ratings, reviews, and overall value."

/-- `ProductListGenerator.generate_top10_list`.  `search` is the Rainforest
oracle (indexed by the effective search term), `now` the formatted clock
value.  A `.error` result is an exception propagating to `generate_list`. -/
def generate_top10_list (affiliate_id : String)
    (search : String → SearchOutcome) (now : String) (prompt : String) :
    Except String GenResult :=
  let category_info := intelligent_category_analysis prompt
  match search_products affiliate_id 10 (search category_info.search_terms) with
  | .error e => .error e
  | .ok products =>
    if products.isEmpty then
      .ok (.failure (noProductsMsg prompt))
    else
      .ok (.success (listTitle prompt) (introText prompt)
        category_info.category (products.take 10) now affiliate_id)

/-! ## Email dispatcher (`send_email_html` / `send_admin_lead`, lines 29-99) -/

/-- The SMTP connection attempted: implicit-TLS on 465 (`smtplib.SMTP_SSL`)
or STARTTLS upgrade on 587 (`smtplib.SMTP` + `starttls`). -/
inductive Port where
  | ssl465
  | starttls587
deriving DecidableEq, Repr

/-- The dict returned by both senders: `{'sent': True}` or
`{'sent': False, 'reason': ...}`. -/
structure EmailOutcome where
  sent : Bool
  reason : Option String
deriving DecidableEq, Repr

/-- `email.message.EmailMessage` header assignment under the stdlib default
policy: a header value containing a linefeed or carriage return raises
`ValueError`.  `headerSafe v` is true when assigning `v` does not raise. -/
def headerSafe (s : String) : Bool :=
  !(s.data.any (fun c => c == '\n' || c == '\r'))

/-- `str(e)` of the `ValueError` the stdlib raises for an LF/CR header. -/
def headerErrMsg : String :=
  "Header values may not contain linefeed or carriage return characters"

/-- Python `x or None` for an optional string (`os.environ.get(...) or
None`). -/
def pyOrNone (o : Option String) : Option String :=
  if pyTruthy o then o else none

/-- The `try SMTP_SSL-465 / except: try STARTTLS-587 / except e2` chain
shared verbatim by both senders, given the outcomes of the two SMTP
sessions (login + send; `.error` carries the
`f"{type(e2).__name__}: {e2}"` rendering of the raised exception).  Also
returns the list of connections attempted, in order. -/
def smtpAttempts (attempt465 attempt587 : Except String Unit) :
    EmailOutcome × List Port :=
  match attempt465 with
  | .ok _ => (⟨true, none⟩, [.ssl465])
  | .error _ =>
    match attempt587 with
    | .ok _ => (⟨true, none⟩, [.ssl465, .starttls587])
    | .error e2 => (⟨false, some e2⟩, [.ssl465, .starttls587])

/-- `send_email_html`.  `sender`/`password` are `EMAIL_USER`/`EMAIL_PASSWORD`
from the environment.  The `EmailMessage` construction (app.py lines 41-48)
sits *outside* both try blocks, so assigning the `From`
(`f"AI4U Top 10 <{sender}>"`), `To`, `Bcc` (when truthy) or `Subject`
header a value with an embedded LF/CR raises `ValueError` out of the
function — the `.error` result.  The HTML body (`set_content` /
`add_alternative`) raises nothing for string input and is not a
parameter. -/
def send_email_html (sender password : Option String)
    (to_email subject : String) (bcc : Option String)
    (attempt465 attempt587 : Except String Unit) :
    Except String (EmailOutcome × List Port) :=
  if !(pyTruthy sender) || !(pyTruthy password) || to_email == "" then
    .ok (⟨false, some "missing_email_config_or_to"⟩, [])
  else if !(headerSafe ("AI4U Top 10 <" ++ sender.getD "" ++ ">")) then
    .error headerErrMsg
  else if !(headerSafe to_email) then
    .error headerErrMsg
  else if pyTruthy bcc && !(headerSafe (bcc.getD "")) then
    .error headerErrMsg
  else if !(headerSafe subject) then
    .error headerErrMsg
  else
    .ok (smtpAttempts attempt465 attempt587)

/-- `send_admin_lead`: same two-connection fallback, gated on
`EMAIL_USER`/`EMAIL_PASSWORD`/`ADMIN_EMAIL` all being set; its message
construction is likewise outside
the try blocks, so an LF/CR in the `From` header (built from the sender)
or in the admin `To` header raises `ValueError` out of the function.  Its
subject is a fixed safe literal and its plain-text body (which carries the
user email and prompt through `set_content`) raises nothing, so neither is
a parameter. -/
def send_admin_lead (sender password admin : Option String)
    (attempt465 attempt587 : Except String Unit) :
    Except String (EmailOutcome × List Port) :=
  let admin := pyOrNone admin
  if !(pyTruthy sender) || !(pyTruthy password) || !(pyTruthy admin) then
    .ok (⟨false, some "missing_admin_or_auth"⟩, [])
  else if !(headerSafe ("AI4U Top 10 <" ++ sender.getD "" ++ ">")) then
    .error headerErrMsg
  else if !(headerSafe (admin.getD "")) then
    .error headerErrMsg
  else
    .ok (smtpAttempts attempt465 attempt587)

/-! ## Request handler (`generate_list`, lines 186-255) -/

/-- The parsed JSON request body.  `none` models a missing key or JSON
`null`: `data.get('prompt')` yields Python `None` in both cases. -/
structure RequestBody where
  prompt : Option String
  email : Option String
deriving DecidableEq, Repr

/-- The JSON object `jsonify` serializes.  Keys absent from the Python dict
are `none`. -/
structure RespBody where
  success : Bool
  error : Option String := none
  title : Option String := none
  intro : Option String := none
  category : Option String := none
  products : Option (List Product) := none
  generated_at : Option String := none
  affiliate_id : Option String := none
  share_url : Option String := none
  list_id : Option String := none
  email_status : Option EmailOutcome := none
deriving DecidableEq, Repr

structure HttpResponse where
  status : Nat
  body : RespBody
deriving DecidableEq, Repr

/-- `{'success': False, 'error': err}` -/
def failBody (err : String) : RespBody :=
  { success := false, error := some err }

/-- Which external calls the handler performed (instrumentation of the
embedding, used to state the no-upstream-call and no-delivery claims). -/
structure Trace where
  searchCalled : Bool
  deliveryAttempted : Bool
  adminAttempted : Bool
deriving DecidableEq, Repr

/-- Process environment and ambient effects of one request: the env vars
read by the handler and senders, the formatted clock value, the
`str(uuid.uuid4())[:8]` share id, and the Rainforest oracle. -/
structure HandlerEnv where
  rainforest_key : Option String
  email_user : Option String
  email_password : Option String
  admin_email : Option String
  now : String
  list_id : String
  search : String → SearchOutcome

/-- Outcomes of the (up to) four SMTP sessions a request can open: two for
the user email, two for the admin lead. -/
structure Attempts where
  u465 : Except String Unit
  u587 : Except String Unit
  a465 : Except String Unit
  a587 : Except String Unit

/-- Default affiliate tag of `RainforestApiClient.__init__`. -/
def default_affiliate_id : String := "ai4u0c-20"

/-- The share URL built for a successful result. -/
def shareUrl (list_id : String) : String :=
  "https://ai4u-top10-lists.vercel.app/list/" ++ list_id

/-- The `POST /api/generate-list` handler `generate_list`, returning the
Flask response (status defaults to 200 for a bare `jsonify(result)`) and
the call trace.  The `except Exception` boundary turns any exception
raised below it — the missing-key `ValueError` of
`RainforestApiClient.__init__`, anything `generate_top10_list` re-raises,
and the header `ValueError` escaping `send_email_html` or
`send_admin_lead` — into a 500 with `str(e)` as the error.  The subject
passed to `send_email_html` is `result.get('title', ...)`, i.e. the
success title; the bcc is `os.environ.get('ADMIN_EMAIL') or None`. -/
def generate_list (env : HandlerEnv) (att : Attempts) (b : RequestBody) :
    HttpResponse × Trace :=
  let prompt := pyStrip (b.prompt.getD "")
  let user_email := pyStrip (b.email.getD "")
  if prompt == "" then
    (⟨400, failBody "Prompt is required"⟩, ⟨false, false, false⟩)
  else if !(pyTruthy env.rainforest_key) then
    (⟨500, failBody "Rainforest API key not found in environment variables"⟩,
      ⟨false, false, false⟩)
  else
    match generate_top10_list default_affiliate_id env.search env.now prompt with
    | .error e => (⟨500, failBody e⟩, ⟨true, false, false⟩)
    | .ok (.failure err) => (⟨200, failBody err⟩, ⟨true, false, false⟩)
    | .ok (.success t intro c ps gen aff) =>
      let base : RespBody :=
        { success := true, title := some t, intro := some intro,
          category := some c, products := some ps, generated_at := some gen,
          affiliate_id := some aff, share_url := some (shareUrl env.list_id),
          list_id := some env.list_id }
      if !(user_email == "") && !ps.isEmpty then
        match send_email_html env.email_user env.email_password user_email t
            (pyOrNone env.admin_email) att.u465 att.u587 with
        | .error e => (⟨500, failBody e⟩, ⟨true, true, false⟩)
        | .ok es =>
          match send_admin_lead env.email_user env.email_password
              env.admin_email att.a465 att.a587 with
          | .error e2 => (⟨500, failBody e2⟩, ⟨true, true, true⟩)
          | .ok _ =>
            (⟨200, { base with email_status := some es.1 }⟩,
              ⟨true, true, true⟩)
      else
        (⟨200, base⟩, ⟨true, false, false⟩)

/-! ## Provider-API delivery strategy (spec §4.4, not present in src/) -/

/-- Modelled from the spec: the provider-API email delivery strategy
(§4.4 "Provider-API strategy"), the second of the two interchangeable
mechanisms; `src/app.py` contains only the direct-SMTP strategy, so this
definition follows the spec text: POST the payload, retry up to 3 attempts
only on a 5xx response with linearly increasing backoff, fail immediately
on a non-retryable (4xx) response, succeed on status 200 or 202. -/
inductive ProviderOutcome where
  /-- a success status was returned on the given (1-based) attempt. -/
  | delivered (status attempts : Nat)
  /-- a non-retryable response: failed immediately on that attempt. -/
  | rejected (status attempts : Nat)
  /-- every attempt got a server error: terminal failure. -/
  | exhausted (attempts : Nat)
deriving DecidableEq, Repr

/-- Modelled from the spec: "Success statuses are 200 and 202." -/
def isSuccessStatus (s : Nat) : Bool := s == 200 || s == 202

/-- Modelled from the spec: "the response indicates a server-side (5xx)
error". -/
def isServerError (s : Nat) : Bool := 500 ≤ s && s < 600

/-- Modelled from the spec: the bounded retry loop of the provider-API
strategy.  `statuses i` is the provider status of the (0-based) attempt
`i`, `base` the backoff unit; the second component lists the backoff
delays slept between attempts (`k * base` before the k-th retry, the
linearly increasing schedule). -/
def providerGo (statuses : Nat → Nat) (base : Nat) :
    Nat → Nat → ProviderOutcome × List Nat
  | done, 0 => (.exhausted done, [])
  | done, remaining + 1 =>
    let s := statuses done
    if isSuccessStatus s then
      (.delivered s (done + 1), [])
    else if isServerError s then
      if remaining == 0 then
        (.exhausted (done + 1), [])
      else
        let r := providerGo statuses base (done + 1) remaining
        (r.1, (done + 1) * base :: r.2)
    else
      (.rejected s (done + 1), [])

/-- Modelled from the spec: one provider-API send, "Retry up to 3
attempts". -/
def provider_send (statuses : Nat → Nat) (base : Nat) :
    ProviderOutcome × List Nat :=
  providerGo statuses base 0 3

/-! ## Concrete fixtures used by counterexamples and witnesses -/

/-- A well-formed upstream entry (non-empty asin and title). -/
def goodItem (n : Nat) : SearchItem :=
  ⟨some ("B00" ++ toString n), some ("Item " ++ toString n),
   some "$9.99", some 4, some "img"⟩

/-- An upstream entry with a missing `asin`. -/
def badItem : SearchItem := ⟨none, some "No Asin", none, none, none⟩

/-- 11 upstream entries, the first one invalid. -/
def cxItems : List SearchItem := badItem :: (List.range 10).map goodItem

/-- 11 upstream entries, all valid. -/
def wItems : List SearchItem := (List.range 11).map goodItem

/-- Projects the product list out of a `generate_top10_list` result. -/
def resultProducts : Except String GenResult → List Product
  | .ok (.success _ _ _ ps _ _) => ps
  | _ => []

/-- Whether a `generate_top10_list` result is the success dict. -/
def genSuccess : Except String GenResult → Bool
  | .ok (.success _ _ _ _ _ _) => true
  | _ => false

/-- A fully configured environment whose search oracle always returns
`cxItems`. -/
def cxEnv : HandlerEnv :=
  ⟨some "rfkey", some "sender@gmail.com", some "apppass", some "admin@x.com",
   "2025-01-01 00:00:00", "abc12345", fun _ => .ok cxItems⟩

/-- All four SMTP sessions succeed. -/
def okAttempts : Attempts := ⟨.ok (), .ok (), .ok (), .ok ()⟩

theorem pyTruthy_iff (o : Option String) :
    pyTruthy o = true ↔ ∃ s, o = some s ∧ s ≠ "" := by
  cases o with
  | none => simp [pyTruthy]
  | some s => simp [pyTruthy]

theorem containsSub_iff (n l : List Char) :
    containsSub n l = true ↔ n <:+: l := by
  induction l with
  | nil => simp [containsSub, List.isEmpty_iff, List.infix_nil]
  | cons c rest ih =>
    simp [containsSub, List.isPrefixOf_iff_prefix, ih, List.infix_cons_iff]

theorem buildProducts_eq_filter_map (aff : String) (items : List SearchItem) :
    buildProducts aff items = (items.filter itemValid).map (mkProduct aff) := by
  induction items with
  | nil => rfl
  | cons item rest ih =>
    simp only [buildProducts, List.filter_cons, itemValid]
    by_cases ha : pyTruthy item.asin = true <;>
      by_cases ht : pyTruthy item.title = true <;>
        simp [ha, ht, ih]

theorem buildProducts_fields (aff : String) (items : List SearchItem) :
    ∀ p ∈ buildProducts aff items, p.asin ≠ "" ∧ p.title ≠ "" := by
  induction items with
  | nil => intro p hp; cases hp
  | cons item rest ih =>
    intro p hp
    rw [buildProducts] at hp
    by_cases hv : (!(pyTruthy item.asin) || !(pyTruthy item.title)) = true
    · rw [if_pos hv] at hp
      exact ih p hp
    · rw [if_neg hv, List.mem_cons] at hp
      rcases hp with hp | hp
      · simp only [Bool.or_eq_true, Bool.not_eq_true'] at hv
        push_neg at hv
        obtain ⟨ha, ht⟩ := hv
        obtain ⟨sa, hsa, hsa0⟩ :=
          (pyTruthy_iff item.asin).mp (by simpa using ha)
        obtain ⟨st, hst, hst0⟩ :=
          (pyTruthy_iff item.title).mp (by simpa using ht)
        subst hp
        constructor
        · simpa [mkProduct, hsa] using hsa0
        · simpa [mkProduct, hst] using hst0
      · exact ih p hp

theorem buildProducts_drop_invalid (aff : String) (item : SearchItem)
    (rest : List SearchItem) (h : itemValid item = false) :
    buildProducts aff (item :: rest) = buildProducts aff rest := by
  simp only [itemValid, Bool.and_eq_false_iff] at h
  rcases h with h | h <;> simp [buildProducts, h]

/-! # Claims -/

/-- C5: every product returned by a successful `search_products` call has a
non-empty identifier and a non-empty title; an upstream entry whose `asin`
or `title` is missing or empty is skipped by the loop without failing the
whole search. -/
theorem malformed_entries_dropped (aff : String) (n : Nat)
    (outcome : SearchOutcome) (ps : List Product)
    (h : search_products aff n outcome = .ok ps) :
    (∀ p ∈ ps, p.asin ≠ "" ∧ p.title ≠ "") ∧
    (∀ item rest, itemValid item = false →
      buildProducts aff (item :: rest) = buildProducts aff rest) := by
  refine ⟨?_, fun item rest hbad => buildProducts_drop_invalid aff item rest hbad⟩
  cases outcome with
  | httpError e => cases h
  | invalidResponse m => cases h
  | ok items =>
    simp only [search_products, Except.ok.injEq] at h
    subst h
    exact buildProducts_fields aff (items.take n)

/-- C5 witness: a concrete response with one valid and one invalid entry. -/
theorem malformed_entries_dropped_witness :
    search_products "ai4u0c-20" 10 (.ok [goodItem 0, badItem]) =
      .ok (buildProducts "ai4u0c-20" [goodItem 0, badItem]) ∧
    ((∀ p ∈ buildProducts "ai4u0c-20" [goodItem 0, badItem],
        p.asin ≠ "" ∧ p.title ≠ "") ∧
      (∀ item rest, itemValid item = false →
        buildProducts "ai4u0c-20" (item :: rest) =
          buildProducts "ai4u0c-20" rest)) :=
  ⟨rfl,
   malformed_entries_dropped "ai4u0c-20" 10 (.ok [goodItem 0, badItem])
     (buildProducts "ai4u0c-20" [goodItem 0, badItem]) rfl⟩

/-- C6: a query whose lower-casing contains a grocery keyword as a
contiguous substring is classified as category `"grocery"`, whatever other
keywords it contains, since the grocery set is tested first. -/
theorem grocery_keyword_classifies_grocery (q : String)
    (h : ∃ w ∈ groceryWords, w.data <:+: (pyLower q).data) :
    (intelligent_category_analysis q).category = "grocery" := by
  have hb : groceryWords.any (fun w => strContains (pyLower q) w) = true := by
    rcases h with ⟨w, hw, hinf⟩
    simp only [List.any_eq_true]
    exact ⟨w, hw, by simpa [strContains, containsSub_iff] using hinf⟩
  simp [intelligent_category_analysis, hb]

/-- C6 witness: `"ORGANIC Baby Snacks"` contains the grocery keyword
`"organic"` (despite also containing the baby keyword `"baby"`) and is
classified grocery. -/
theorem grocery_keyword_witness :
    (∃ w ∈ groceryWords, w.data <:+: (pyLower "ORGANIC Baby Snacks").data) ∧
    (intelligent_category_analysis "ORGANIC Baby Snacks").category =
      "grocery" := by
  have h : ∃ w ∈ groceryWords,
      w.data <:+: (pyLower "ORGANIC Baby Snacks").data := by
    refine ⟨"organic", by decide, ?_⟩
    exact (containsSub_iff _ _).mp (by decide)
  exact ⟨h, grocery_keyword_classifies_grocery "ORGANIC Baby Snacks" h⟩

/-- C2 counterexample: an upstream response with 11 entries whose first
entry is invalid.  The code slices to the first 10 entries *before*
filtering, so the final list has only 9 products, not 10, and the 11th
(valid) entry never makes it in — refuting "exactly 10 products, namely
the first 10 valid entries". -/
theorem truncation_claim_counterexample :
    cxItems.length = 11 ∧
    genSuccess (generate_top10_list "ai4u0c-20" (fun _ => .ok cxItems)
      "2025-01-01 00:00:00" "vitamins") = true ∧
    (resultProducts (generate_top10_list "ai4u0c-20" (fun _ => .ok cxItems)
      "2025-01-01 00:00:00" "vitamins")).length = 9 := by
  refine ⟨by decide, by decide, by decide⟩

/-- C2 amended: the final list is the image of the *valid entries among the
first 10 upstream entries*, in upstream order; it has exactly 10 products
when the response is longer than 10 and its first 10 entries are all
valid (in general invalid entries among the first 10 shrink the list below
10 instead of being replaced by later entries). -/
theorem truncation_amended (aff : String) (items : List SearchItem) :
    buildProducts aff (items.take 10) =
      ((items.take 10).filter itemValid).map (mkProduct aff) ∧
    (10 < items.length → (∀ it ∈ items.take 10, itemValid it = true) →
      (buildProducts aff (items.take 10)).length = 10) := by
  refine ⟨buildProducts_eq_filter_map aff (items.take 10), ?_⟩
  intro h10 hv
  rw [buildProducts_eq_filter_map,
    List.filter_eq_self.mpr (fun a ha => hv a ha),
    List.length_map, List.length_take]
  omega

/-- C2 amended witness: 11 valid entries give exactly 10 products. -/
theorem truncation_amended_witness :
    (10 < wItems.length ∧ (∀ it ∈ wItems.take 10, itemValid it = true)) ∧
    (buildProducts "ai4u0c-20" (wItems.take 10)).length = 10 :=
  ⟨⟨by decide, by decide⟩,
   (truncation_amended "ai4u0c-20" wItems).2 (by decide) (by decide)⟩

/-- C3: when the upstream search succeeds but no entry is retained,
`generate_top10_list` returns the `{'success': False, 'error': "No
products found..."}` dict, and a success dict never carries an empty
product list. -/
theorem empty_results_are_not_found (aff : String)
    (search : String → SearchOutcome) (now prompt : String)
    (items : List SearchItem)
    (hs : search (intelligent_category_analysis prompt).search_terms =
      .ok items) :
    (buildProducts aff (items.take 10) = [] →
      generate_top10_list aff search now prompt =
        .ok (.failure (noProductsMsg prompt))) ∧
    (∀ t i c ps g a, generate_top10_list aff search now prompt =
      .ok (.success t i c ps g a) → ps ≠ []) := by
  have hred : generate_top10_list aff search now prompt =
      (if (buildProducts aff (items.take 10)).isEmpty then
        .ok (.failure (noProductsMsg prompt))
      else
        .ok (.success (listTitle prompt) (introText prompt)
          (intelligent_category_analysis prompt).category
          ((buildProducts aff (items.take 10)).take 10) now aff)) := by
    simp only [generate_top10_list]
    rw [hs]
    rfl
  constructor
  · intro h
    rw [hred, if_pos (by simp [h])]
  · intro t i c ps g a heq
    rw [hred] at heq
    by_cases hemp : (buildProducts aff (items.take 10)).isEmpty = true
    · rw [if_pos hemp] at heq
      cases heq
    · rw [if_neg hemp] at heq
      simp only [Except.ok.injEq, GenResult.success.injEq] at heq
      obtain ⟨-, -, -, hps, -, -⟩ := heq
      subst hps
      simp only [Bool.not_eq_true, List.isEmpty_eq_false] at hemp
      simp [List.take_eq_nil_iff, hemp]

/-- C3 witness: an upstream response whose only entry is invalid yields the
not-found failure dict. -/
theorem empty_results_witness :
    ((fun _ : String => SearchOutcome.ok [badItem])
        (intelligent_category_analysis "vitamins").search_terms =
      .ok [badItem]) ∧
    (buildProducts "ai4u0c-20" ([badItem].take 10) = [] →
      generate_top10_list "ai4u0c-20" (fun _ => .ok [badItem])
        "2025-01-01 00:00:00" "vitamins" =
          .ok (.failure (noProductsMsg "vitamins"))) ∧
    generate_top10_list "ai4u0c-20" (fun _ => .ok [badItem])
      "2025-01-01 00:00:00" "vitamins" =
        .ok (.failure (noProductsMsg "vitamins")) := by
  have h := empty_results_are_not_found "ai4u0c-20"
    (fun _ => SearchOutcome.ok [badItem]) "2025-01-01 00:00:00" "vitamins"
    [badItem] rfl
  exact ⟨rfl, h.1, h.1 (by decide)⟩

/-- C4: provider-API delivery (spec-modelled): a request answered 503 on
every attempt is retried up to the 3-attempt bound with linearly
increasing backoff and then fails terminally; a 400 response fails on the
first attempt with no retry and no backoff; a first response of 200 or 202
succeeds on the first attempt. -/
theorem provider_retry_policy (base : Nat) (st5 st4 stOk : Nat → Nat)
    (h5 : ∀ i, st5 i = 503) (h4 : st4 0 = 400)
    (hok : isSuccessStatus (stOk 0) = true) :
    provider_send st5 base = (.exhausted 3, [1 * base, 2 * base]) ∧
    provider_send st4 base = (.rejected 400 1, []) ∧
    (provider_send stOk base).1 = .delivered (stOk 0) 1 := by
  refine ⟨?_, ?_, ?_⟩
  · simp [provider_send, providerGo, h5, isSuccessStatus, isServerError]
  · simp [provider_send, providerGo, h4, isSuccessStatus, isServerError]
  · simp [provider_send, providerGo, hok]

/-- C4 witness: concrete simulated status streams. -/
theorem provider_retry_witness :
    ((∀ i, (fun _ : Nat => 503) i = 503) ∧ (fun _ : Nat => 400) 0 = 400 ∧
      isSuccessStatus ((fun _ : Nat => 202) 0) = true) ∧
    (provider_send (fun _ => 503) 2 = (.exhausted 3, [1 * 2, 2 * 2]) ∧
      provider_send (fun _ => 400) 2 = (.rejected 400 1, []) ∧
      (provider_send (fun _ => 202) 2).1 =
        .delivered ((fun _ : Nat => 202) 0) 1) :=
  ⟨⟨fun _ => rfl, rfl, rfl⟩,
   provider_retry_policy 2 (fun _ => 503) (fun _ => 400) (fun _ => 202)
     (fun _ => rfl) rfl rfl⟩

/-! # Handler-level lemmas -/

/-- The recipient address influences `send_email_html` only through its
emptiness and header-safety: two non-empty LF/CR-free recipients give the
same result. -/
theorem send_email_html_to_irrelevant (sender password : Option String)
    (to1 to2 subject : String) (bcc : Option String)
    (a465 a587 : Except String Unit)
    (h1 : (to1 == "") = false) (h2 : (to2 == "") = false)
    (hs1 : headerSafe to1 = true) (hs2 : headerSafe to2 = true) :
    send_email_html sender password to1 subject bcc a465 a587 =
      send_email_html sender password to2 subject bcc a465 a587 := by
  unfold send_email_html
  simp [h1, h2, hs1, hs2]

/-- C1 counterexample: with a configured environment and a working search,
the request `{prompt: "vitamins", email: "not-an-email"}` is answered with
status 200 and `success: true`, and delivery to the invalid address is
even attempted — the handler performs no email validation, contradicting
the claimed 400 rejection. -/
theorem email_validation_counterexample :
    (generate_list cxEnv okAttempts
      ⟨some "vitamins", some "not-an-email"⟩).1.status = 200 ∧
    (generate_list cxEnv okAttempts
      ⟨some "vitamins", some "not-an-email"⟩).1.body.success = true ∧
    (generate_list cxEnv okAttempts
      ⟨some "vitamins", some "not-an-email"⟩).2.deliveryAttempted = true := by
  refine ⟨by decide, by decide, by decide⟩

/-- C1 corrected: the handler applies no syntactic email validation: for
any prompt that survives stripping, the response status is never 400
whatever the email field holds, and the full handler output on the
invalid address `"not-an-email"` is identical to the output on
`"user@example.com"` — both are carried into delivery unchecked.  (The
email can still move the status away from 200, but not by validation: an
embedded linefeed raises out of the header construction to a 500; see the
C9 counterexample.) -/
theorem no_email_validation (env : HandlerEnv) (att : Attempts)
    (b : RequestBody) (p : Option String)
    (hne : pyStrip (b.prompt.getD "") ≠ "") :
    (generate_list env att b).1.status ≠ 400 ∧
    generate_list env att ⟨p, some "not-an-email"⟩ =
      generate_list env att ⟨p, some "user@example.com"⟩ := by
  constructor
  · have hp' : (pyStrip (b.prompt.getD "") == "") = false := by simp [hne]
    by_cases hk : pyTruthy env.rainforest_key = true
    · cases hg : generate_top10_list default_affiliate_id env.search env.now
        (pyStrip (b.prompt.getD "")) with
      | error e => simp [generate_list, hp', hk, hg]
      | ok r =>
        cases r with
        | failure err => simp [generate_list, hp', hk, hg]
        | success t i c ps g a =>
          by_cases hc :
              (!(pyStrip (b.email.getD "") == "") && !ps.isEmpty) = true
          · cases hmail : send_email_html env.email_user env.email_password
                (pyStrip (b.email.getD "")) t (pyOrNone env.admin_email)
                att.u465 att.u587 with
            | error e2 => simp [generate_list, hp', hk, hg, hc, hmail]
            | ok es =>
              cases hadm : send_admin_lead env.email_user env.email_password
                  env.admin_email att.a465 att.a587 with
              | error e3 =>
                simp [generate_list, hp', hk, hg, hc, hmail, hadm]
              | ok o => simp [generate_list, hp', hk, hg, hc, hmail, hadm]
          · simp [generate_list, hp', hk, hg, hc]
    · simp [generate_list, hp', hk]
  · by_cases hp : (pyStrip (p.getD "") == "") = true
    · simp [generate_list, hp]
    · by_cases hk : pyTruthy env.rainforest_key = true
      · cases hg : generate_top10_list default_affiliate_id env.search env.now
          (pyStrip (p.getD "")) with
        | error e => simp [generate_list, hp, hk, hg]
        | ok r =>
          cases r with
          | failure err => simp [generate_list, hp, hk, hg]
          | success t i c ps g a =>
            have hto := send_email_html_to_irrelevant env.email_user
              env.email_password (pyStrip "not-an-email")
              (pyStrip "user@example.com") t (pyOrNone env.admin_email)
              att.u465 att.u587 (by decide) (by decide) (by decide)
              (by decide)
            simp [generate_list, hp, hk, hg, hto,
              show (pyStrip "not-an-email" == "") = false from by decide,
              show (pyStrip "user@example.com" == "") = false from by decide]
      · simp [generate_list, hp, hk]

/-- C1 witness: a non-empty prompt with a fully configured environment. -/
theorem no_email_validation_witness :
    pyStrip ((some "vitamins" : Option String).getD "") ≠ "" ∧
    ((generate_list cxEnv okAttempts
        ⟨some "vitamins", some "not-an-email"⟩).1.status ≠ 400 ∧
     generate_list cxEnv okAttempts ⟨some "vitamins", some "not-an-email"⟩ =
       generate_list cxEnv okAttempts
         ⟨some "vitamins", some "user@example.com"⟩) :=
  ⟨by decide,
   no_email_validation cxEnv okAttempts
     ⟨some "vitamins", some "not-an-email"⟩ (some "vitamins") (by decide)⟩

/-- C7: a prompt that strips to the empty string is rejected with status
400, `success: false` and error `'Prompt is required'`, and the upstream
search API is never called. -/
theorem empty_prompt_rejected (env : HandlerEnv) (att : Attempts)
    (b : RequestBody) (h : pyStrip (b.prompt.getD "") = "") :
    (generate_list env att b).1.status = 400 ∧
    (generate_list env att b).1.body.success = false ∧
    (generate_list env att b).1.body.error = some "Prompt is required" ∧
    (generate_list env att b).2.searchCalled = false := by
  refine ⟨?_, ?_, ?_, ?_⟩ <;> simp [generate_list, h, failBody]

/-- C7 witness: a whitespace-only prompt. -/
theorem empty_prompt_witness :
    pyStrip ((some "   " : Option String).getD "") = "" ∧
    ((generate_list cxEnv okAttempts
        ⟨some "   ", some "user@example.com"⟩).1.status = 400 ∧
     (generate_list cxEnv okAttempts
        ⟨some "   ", some "user@example.com"⟩).1.body.success = false ∧
     (generate_list cxEnv okAttempts
        ⟨some "   ", some "user@example.com"⟩).1.body.error =
          some "Prompt is required" ∧
     (generate_list cxEnv okAttempts
        ⟨some "   ", some "user@example.com"⟩).2.searchCalled = false) :=
  ⟨by decide,
   empty_prompt_rejected cxEnv okAttempts
     ⟨some "   ", some "user@example.com"⟩ (by decide)⟩

/-- C10: a missing (or JSON null) `prompt` or `email` key is coerced to the
empty string by `(data.get(...) or '').strip()`: a missing prompt produces
exactly the handler output of an explicit empty prompt, namely the 400
'Prompt is required' failure, and a missing email behaves exactly like an
explicit empty email, so no delivery is attempted. -/
theorem missing_fields_coerced (env : HandlerEnv) (att : Attempts)
    (e p : Option String) :
    generate_list env att ⟨none, e⟩ = generate_list env att ⟨some "", e⟩ ∧
    (generate_list env att ⟨none, e⟩).1.status = 400 ∧
    (generate_list env att ⟨none, e⟩).1.body.error =
      some "Prompt is required" ∧
    generate_list env att ⟨p, none⟩ = generate_list env att ⟨p, some ""⟩ ∧
    (generate_list env att ⟨p, none⟩).2.deliveryAttempted = false := by
  refine ⟨rfl, ?_, ?_, rfl, ?_⟩
  · simp [generate_list, failBody, pyStrip, isPySpace]
  · simp [generate_list, failBody, pyStrip, isPySpace]
  · by_cases hp : (pyStrip ((p : Option String).getD "") == "") = true
    · simp [generate_list, hp]
    · by_cases hk : pyTruthy env.rainforest_key = true
      · cases hg : generate_top10_list default_affiliate_id env.search
          env.now (pyStrip (p.getD "")) with
        | error ex => simp [generate_list, hp, hk, hg]
        | ok r =>
          cases r with
          | failure err => simp [generate_list, hp, hk, hg]
          | success t i c ps g a =>
            simp [generate_list, hp, hk, hg, show pyStrip "" = "" from rfl]
      · simp [generate_list, hp, hk]
